import Mathlib

/-!
# Digital stopwatch: Verilator control program and trace snapshot

A shallow embedding of

* `src/verilator_sw/main.cpp` (`print_status`, `tick`, `wait_cycles`, `main`), and
* `src/verilator_sw/obj_dir/Vstopwatch_top__Trace__0__Slow.cpp`
  (the functions `trace_init_sub__TOP__0`, `trace_const_0_sub_0` and
  `trace_full_0_sub_0` of `Vstopwatch_top___024root`).

The generated device model itself (`Vstopwatch_top::eval`) is not among the
sources.  The driver functions take it as a parameter `ev`; where a concrete
device is needed, `eval_spec` models it from sections 4.1 to 4.4 of the
specification.

Every effectful statement of the driver appends one `Event` to a log, in
program order, so that statements about the order and the number of actions
become statements about lists.
-/

namespace Stopwatch

/-! ## Data model -/

/-- The device instance.  The fields are the members that `main.cpp` and the
trace code read or write (`Vstopwatch_top` and its root share them by
reference).  The class declaration is not among the sources; `clk_prev` is the
previous clock level that a model needs in order to recognise a rising edge. -/
structure Vstopwatch_top where
  clk : Nat
  rst_n : Nat
  start : Nat
  stop : Nat
  reset : Nat
  minutes : Nat
  seconds : Nat
  status : Nat
  stopwatch_top__DOT__fsm__DOT__state : Nat
  stopwatch_top__DOT__fsm__DOT__next_state : Nat
  clk_prev : Nat
  deriving DecidableEq, Repr

/-- The ports that the driver assigns to. -/
inductive Port where
  | clk
  | rst_n
  | start
  | stop
  | reset
  deriving DecidableEq, Repr

/-- One observable action of the control program. -/
inductive Event where
  /-- An assignment `dut->port = v`. -/
  | write (p : Port) (v : Nat)
  /-- A call `dut->eval()`. -/
  | eval
  /-- The statement `tickcount++`. -/
  | tickinc
  /-- A call `usleep(us)`. -/
  | usleep (us : Nat)
  /-- The line written by one call of `print_status`. -/
  | status_line (s : String)
  /-- Any other text sent to `std::cout` by one statement. -/
  | cout (s : String)
  /-- The call `dut->final()`. -/
  | final
  deriving DecidableEq, Repr

/-- The state of a run: the device, the `vluint64_t` tick counter and the log
of actions performed so far. -/
structure Sim where
  dut : Vstopwatch_top
  tickcount : Nat
  log : List Event
  deriving DecidableEq, Repr

/-- The assignment `dut->p = v`. -/
def Vstopwatch_top.set (d : Vstopwatch_top) (p : Port) (v : Nat) : Vstopwatch_top :=
  match p with
  | .clk => { d with clk := v }
  | .rst_n => { d with rst_n := v }
  | .start => { d with start := v }
  | .stop => { d with stop := v }
  | .reset => { d with reset := v }

/-- The value of port `p`. -/
def Vstopwatch_top.get (d : Vstopwatch_top) (p : Port) : Nat :=
  match p with
  | .clk => d.clk
  | .rst_n => d.rst_n
  | .start => d.start
  | .stop => d.stop
  | .reset => d.reset

/-- An `eval` respects the ports when it leaves every input port as the driver
set it (a Verilator model only reads its input ports). -/
def RespectsPorts (ev : Vstopwatch_top → Vstopwatch_top) : Prop :=
  ∀ (d : Vstopwatch_top) (p : Port), (ev d).get p = d.get p

/-- Statement `dut->p = v;`. -/
def Sim.write (s : Sim) (p : Port) (v : Nat) : Sim :=
  { s with dut := s.dut.set p v, log := s.log ++ [Event.write p v] }

/-- Statement `dut->eval();`. -/
def Sim.eval (ev : Vstopwatch_top → Vstopwatch_top) (s : Sim) : Sim :=
  { s with dut := ev s.dut, log := s.log ++ [Event.eval] }

/-- Statement `std::cout << ... ;` for text that is no status line. -/
def Sim.cout (s : Sim) (text : String) : Sim :=
  { s with log := s.log ++ [Event.cout text] }

/-! ## `print_status` (main.cpp 12-27) -/

/-- The `switch (dut->status)` of `print_status`. -/
def status_str (status : Nat) : String :=
  match status with
  | 0 => "IDLE   "
  | 1 => "RUNNING"
  | 2 => "PAUSED "
  | _ => "UNKNOWN"

/-- Output of `std::setfill(fill) << std::setw(w) << v` for a non-negative
`int`: the decimal digits of `v`, filled on the left up to width `w`; a number
with more than `w` digits is written in full. -/
def put_int (w : Nat) (fill : Char) (v : Nat) : String :=
  String.mk (List.replicate (w - (Nat.toDigits 10 v).length) fill ++ Nat.toDigits 10 v)

/-- The part of the status line after `" | Time: "`. -/
def time_str (minutes seconds : Nat) : String :=
  put_int 2 '0' minutes ++ ":" ++ put_int 2 '0' seconds

/-- The whole line that `print_status` sends to `std::cout`. -/
def status_text (d : Vstopwatch_top) : String :=
  "Status: " ++ status_str d.status ++ " | Time: " ++ time_str d.minutes d.seconds ++ "\n"

/-- Function `print_status(dut)`. -/
def print_status (s : Sim) : Sim :=
  { s with log := s.log ++ [Event.status_line (status_text s.dut)] }

/-! ## `tick` and `wait_cycles` (main.cpp 30-52) -/

/-- The default value of the global `tick_delay_us` (main.cpp 10). -/
def tick_delay_us_default : Nat := 1000000

/-- Function `tick(dut, tickcount)`.  The global `tick_delay_us`, which the
program never assigns, is the parameter of the same name; `tickcount++` is an
increment of a 64-bit unsigned integer. -/
def tick (ev : Vstopwatch_top → Vstopwatch_top) (tick_delay_us : Nat) (s : Sim) : Sim :=
  let s := s.write Port.clk 1
  let s := s.eval ev
  let s := { s with tickcount := (s.tickcount + 1) % 2 ^ 64, log := s.log ++ [Event.tickinc] }
  let s := s.write Port.clk 0
  let s := s.eval ev
  let s := if tick_delay_us > 0 then { s with log := s.log ++ [Event.usleep tick_delay_us] } else s
  print_status s

/-- The loop `for (int i = ...; i < cycles; i++) tick(dut, tickcount);` from
the current value of `i`. -/
def wait_cycles_from (ev : Vstopwatch_top → Vstopwatch_top) (tick_delay_us : Nat)
    (cycles : Int) (i : Int) (s : Sim) : Sim :=
  if i < cycles then
    wait_cycles_from ev tick_delay_us cycles (i + 1) (tick ev tick_delay_us s)
  else s
termination_by (cycles - i).toNat
decreasing_by omega

/-- Function `wait_cycles(dut, tickcount, cycles)`. -/
def wait_cycles (ev : Vstopwatch_top → Vstopwatch_top) (tick_delay_us : Nat)
    (cycles : Int) (s : Sim) : Sim :=
  wait_cycles_from ev tick_delay_us cycles 0 s

/-! ## `main` (main.cpp 54-158) -/

/-- Lines 62-71: the banner and the initialisation of the inputs. -/
def main_init (ev : Vstopwatch_top → Vstopwatch_top) (s : Sim) : Sim :=
  let s := s.cout " Digital Stopwatch Controller \n"
  let s := s.cout " Verilator Co-Simulation Demo \n\n"
  let s := s.write Port.rst_n 0
  let s := s.write Port.start 0
  let s := s.write Port.stop 0
  let s := s.write Port.reset 0
  let s := s.write Port.clk 0
  s.eval ev

/-- Lines 73-78: two ticks under master reset, two ticks after its release. -/
def main_apply_reset (ev : Vstopwatch_top → Vstopwatch_top) (tick_delay_us : Nat) (s : Sim) : Sim :=
  let s := s.cout "Applying reset...\n"
  let s := wait_cycles ev tick_delay_us 2 s
  let s := s.write Port.rst_n 1
  let s := wait_cycles ev tick_delay_us 2 s
  s.cout "\n"

/-- A pulse on input `p`: `dut->p = 1; tick; dut->p = 0; tick;`. -/
def pulse (ev : Vstopwatch_top → Vstopwatch_top) (tick_delay_us : Nat) (p : Port) (s : Sim) : Sim :=
  let s := s.write p 1
  let s := tick ev tick_delay_us s
  let s := s.write p 0
  tick ev tick_delay_us s

/-- The loop `for (int i = ...; i < n; i++)` whose body is
`wait_cycles(dut, tickcount, 1); if ((i + 1) % 5 == 0) std::cout << "  ";`
(lines 89-94 and 117-122), from the current value of `i`. -/
def count_loop_from (ev : Vstopwatch_top → Vstopwatch_top) (tick_delay_us : Nat)
    (n : Int) (i : Int) (s : Sim) : Sim :=
  if i < n then
    let s := wait_cycles ev tick_delay_us 1 s
    let s := if (i + 1) % 5 = 0 then s.cout "  " else s
    count_loop_from ev tick_delay_us n (i + 1) s
  else s
termination_by (n - i).toNat
decreasing_by omega

/-- The loop `for (int i = ...; i < 5; i++)` whose body is
`wait_cycles(dut, tickcount, 1); std::cout << "  ";` (lines 137-140), from the
current value of `i`. -/
def rollover_loop_from (ev : Vstopwatch_top → Vstopwatch_top) (tick_delay_us : Nat)
    (n : Int) (i : Int) (s : Sim) : Sim :=
  if i < n then
    let s := wait_cycles ev tick_delay_us 1 s
    let s := s.cout "  "
    rollover_loop_from ev tick_delay_us n (i + 1) s
  else s
termination_by (n - i).toNat
decreasing_by omega

/-- Lines 80-85: the start pulse of test 1. -/
def main_test1_start (ev : Vstopwatch_top → Vstopwatch_top) (tick_delay_us : Nat) (s : Sim) : Sim :=
  let s := s.cout "--- Test 1: Starting stopwatch ---\n"
  pulse ev tick_delay_us Port.start s

/-- Lines 87-95: ten ticks. -/
def main_test1_count (ev : Vstopwatch_top → Vstopwatch_top) (tick_delay_us : Nat) (s : Sim) : Sim :=
  let s := s.cout "Counting for 10 seconds...\n"
  let s := count_loop_from ev tick_delay_us 10 0 s
  s.cout "\n"

/-- Lines 97-102: the stop pulse of test 2. -/
def main_test2_stop (ev : Vstopwatch_top → Vstopwatch_top) (tick_delay_us : Nat) (s : Sim) : Sim :=
  let s := s.cout "--- Test 2: Pausing stopwatch ---\n"
  pulse ev tick_delay_us Port.stop s

/-- Lines 104-107: five ticks while paused. -/
def main_test2_wait (ev : Vstopwatch_top → Vstopwatch_top) (tick_delay_us : Nat) (s : Sim) : Sim :=
  let s := s.cout "Waiting 5 cycles while paused (time should not change)...\n"
  let s := wait_cycles ev tick_delay_us 5 s
  let s := s.cout "  "
  s.cout "\n"

/-- Lines 109-114: the start pulse of test 3. -/
def main_test3_start (ev : Vstopwatch_top → Vstopwatch_top) (tick_delay_us : Nat) (s : Sim) : Sim :=
  let s := s.cout "--- Test 3: Resuming stopwatch ---\n"
  pulse ev tick_delay_us Port.start s

/-- Lines 116-123: fifteen ticks. -/
def main_test3_count (ev : Vstopwatch_top → Vstopwatch_top) (tick_delay_us : Nat) (s : Sim) : Sim :=
  let s := s.cout "Counting for 15 more seconds...\n"
  let s := count_loop_from ev tick_delay_us 15 0 s
  s.cout "\n"

/-- Lines 129-134: `wait_cycles(dut, tickcount, 58-28)`. -/
def main_test4_forward (ev : Vstopwatch_top → Vstopwatch_top) (tick_delay_us : Nat) (s : Sim) : Sim :=
  let s := s.cout "--- Test 4: Testing minute rollover ---\n"
  let s := wait_cycles ev tick_delay_us (58 - 28) s
  s.cout "  "

/-- Lines 136-141: five ticks past the rollover. -/
def main_test4_rollover (ev : Vstopwatch_top → Vstopwatch_top) (tick_delay_us : Nat) (s : Sim) : Sim :=
  let s := s.cout "Counting past 59 seconds to see rollover...\n"
  let s := rollover_loop_from ev tick_delay_us 5 0 s
  s.cout "\n"

/-- Lines 143-148: the final pulse on `reset`. -/
def main_final_reset (ev : Vstopwatch_top → Vstopwatch_top) (tick_delay_us : Nat) (s : Sim) : Sim :=
  let s := s.cout "--- Final Reset ---\n"
  pulse ev tick_delay_us Port.reset s

/-- Lines 58-71 of `main`: `dut0` is the freshly constructed device,
`tickcount` starts at 0. -/
def main_upto_init (ev : Vstopwatch_top → Vstopwatch_top) (dut0 : Vstopwatch_top) : Sim :=
  main_init ev { dut := dut0, tickcount := 0, log := [] }

/-- Lines 58-78 of `main`. -/
def main_upto_reset (ev : Vstopwatch_top → Vstopwatch_top) (tick_delay_us : Nat)
    (dut0 : Vstopwatch_top) : Sim :=
  main_apply_reset ev tick_delay_us (main_upto_init ev dut0)

/-- Lines 58-85 of `main`. -/
def main_upto_start (ev : Vstopwatch_top → Vstopwatch_top) (tick_delay_us : Nat)
    (dut0 : Vstopwatch_top) : Sim :=
  main_test1_start ev tick_delay_us (main_upto_reset ev tick_delay_us dut0)

/-- Lines 58-95 of `main`. -/
def main_upto_count10 (ev : Vstopwatch_top → Vstopwatch_top) (tick_delay_us : Nat)
    (dut0 : Vstopwatch_top) : Sim :=
  main_test1_count ev tick_delay_us (main_upto_start ev tick_delay_us dut0)

/-- Lines 58-102 of `main`. -/
def main_upto_stop (ev : Vstopwatch_top → Vstopwatch_top) (tick_delay_us : Nat)
    (dut0 : Vstopwatch_top) : Sim :=
  main_test2_stop ev tick_delay_us (main_upto_count10 ev tick_delay_us dut0)

/-- Lines 58-107 of `main`. -/
def main_upto_paused5 (ev : Vstopwatch_top → Vstopwatch_top) (tick_delay_us : Nat)
    (dut0 : Vstopwatch_top) : Sim :=
  main_test2_wait ev tick_delay_us (main_upto_stop ev tick_delay_us dut0)

/-- Lines 58-114 of `main`. -/
def main_upto_resume (ev : Vstopwatch_top → Vstopwatch_top) (tick_delay_us : Nat)
    (dut0 : Vstopwatch_top) : Sim :=
  main_test3_start ev tick_delay_us (main_upto_paused5 ev tick_delay_us dut0)

/-- Lines 58-123 of `main`. -/
def main_upto_count15 (ev : Vstopwatch_top → Vstopwatch_top) (tick_delay_us : Nat)
    (dut0 : Vstopwatch_top) : Sim :=
  main_test3_count ev tick_delay_us (main_upto_resume ev tick_delay_us dut0)

/-- Lines 58-134 of `main`. -/
def main_upto_forward (ev : Vstopwatch_top → Vstopwatch_top) (tick_delay_us : Nat)
    (dut0 : Vstopwatch_top) : Sim :=
  main_test4_forward ev tick_delay_us (main_upto_count15 ev tick_delay_us dut0)

/-- Lines 58-141 of `main`. -/
def main_upto_rollover (ev : Vstopwatch_top → Vstopwatch_top) (tick_delay_us : Nat)
    (dut0 : Vstopwatch_top) : Sim :=
  main_test4_rollover ev tick_delay_us (main_upto_forward ev tick_delay_us dut0)

/-- Lines 58-148 of `main`: the whole stimulus script. -/
def main_script (ev : Vstopwatch_top → Vstopwatch_top) (tick_delay_us : Nat)
    (dut0 : Vstopwatch_top) : Sim :=
  main_final_reset ev tick_delay_us (main_upto_rollover ev tick_delay_us dut0)

/-- Number of `tickcount++` statements in a log. -/
def n_ticks (l : List Event) : Nat := l.count Event.tickinc

/-- Whether an event is a status line. -/
def Event.is_status : Event → Bool
  | Event.status_line _ => true
  | _ => false

/-- Number of status lines in a log. -/
def n_status (l : List Event) : Nat := l.countP Event.is_status

/-- Whether an event is an assignment to one of the input lines `rst_n`,
`start`, `stop`, `reset`. -/
def Event.writes_input : Event → Bool
  | Event.write Port.clk _ => false
  | Event.write _ _ => true
  | _ => false

/-! ## The device, modelled from the specification -/

/-- The state codes of the control FSM (trace constants `IDLE`, `RUNNING`,
`PAUSED`). -/
def IDLE : Nat := 0

/-- See `IDLE`. -/
def RUNNING : Nat := 1

/-- See `IDLE`. -/
def PAUSED : Nat := 2

/-- Modelled from the spec: the next-state function of the control FSM, which
is part of the generated device model that is not among the sources.  Section
4.1: master reset first, then local reset, then the rule of the current state.
A code outside the table has no rule of its own and keeps its value. -/
def fsm_next (state : Nat) (master_reset_active start stop local_reset : Bool) : Nat :=
  if master_reset_active then IDLE
  else if local_reset then IDLE
  else if state = IDLE then (if start then RUNNING else IDLE)
  else if state = RUNNING then (if stop then PAUSED else RUNNING)
  else if state = PAUSED then (if start then RUNNING else PAUSED)
  else state

/-- Modelled from the spec: the second counter of section 4.2, part of the
generated device model that is not among the sources.  The result is
`(next_value, overflow_pulse)`. -/
def sec_next (clear enable : Bool) (current_value : Nat) : Nat × Bool :=
  if clear then (0, false)
  else if !enable then (current_value, false)
  else (if current_value = 59 then 0 else current_value + 1, decide (current_value = 59))

/-- Modelled from the spec: the minute counter of section 4.3, part of the
generated device model that is not among the sources. -/
def min_next (clear second_overflow_pulse : Bool) (current_value : Nat) : Nat :=
  if clear then 0
  else if second_overflow_pulse then (current_value + 1) % 256
  else current_value

/-- Modelled from the spec: `Vstopwatch_top::eval`, which is not among the
sources.  On a rising clock edge the FSM and both counters commit the next
values computed from the state before the edge and the current inputs
(sections 4.1 to 4.4); otherwise nothing changes.  `clear` is master reset or
local reset (the trace declares `clear_counters` under the code of `reset`);
`enable` is `state == RUNNING` before the edge; `status` is the state code. -/
def eval_spec (d : Vstopwatch_top) : Vstopwatch_top :=
  let master_reset_active : Bool := decide (d.rst_n = 0)
  let start : Bool := decide (d.start ≠ 0)
  let stop : Bool := decide (d.stop ≠ 0)
  let local_reset : Bool := decide (d.reset ≠ 0)
  if d.clk_prev = 0 ∧ d.clk ≠ 0 then
    let state := d.stopwatch_top__DOT__fsm__DOT__state
    let enable : Bool := decide (state = RUNNING)
    let clear : Bool := master_reset_active || local_reset
    let sec := sec_next clear enable d.seconds
    let state1 := fsm_next state master_reset_active start stop local_reset
    { d with
      seconds := sec.1
      minutes := min_next clear sec.2 d.minutes
      stopwatch_top__DOT__fsm__DOT__state := state1
      stopwatch_top__DOT__fsm__DOT__next_state :=
        fsm_next state1 master_reset_active start stop local_reset
      status := state1
      clk_prev := d.clk }
  else
    { d with
      stopwatch_top__DOT__fsm__DOT__next_state :=
        fsm_next d.stopwatch_top__DOT__fsm__DOT__state master_reset_active start stop local_reset
      clk_prev := d.clk }

/-- Modelled from the spec: the freshly constructed device of section 3 (all
inputs deasserted, state Idle, counters at zero); the constructor is not among
the sources. -/
def dut_new : Vstopwatch_top :=
  { clk := 0, rst_n := 1, start := 0, stop := 0, reset := 0, minutes := 0, seconds := 0,
    status := 0, stopwatch_top__DOT__fsm__DOT__state := 0,
    stopwatch_top__DOT__fsm__DOT__next_state := 0, clk_prev := 0 }

/-! ## The trace snapshot (Vstopwatch_top__Trace__0__Slow.cpp) -/

/-- One `declBit` / `declBus` call of `trace_init_sub__TOP__0`: the scope it
is made in, the signal name, the code offset `c + code` and the width. -/
structure TraceDecl where
  scope : List String
  name : String
  code : Nat
  bits : Nat
  deriving DecidableEq, Repr

/-- Function `Vstopwatch_top___024root__trace_init_sub__TOP__0` (lines 14-63),
with the scope that `pushPrefix` / `popPrefix` give each declaration. -/
def Vstopwatch_top___024root__trace_init_sub__TOP__0 : List TraceDecl :=
  [ ⟨[], "clk", 1, 1⟩, ⟨[], "rst_n", 2, 1⟩, ⟨[], "start", 3, 1⟩, ⟨[], "stop", 4, 1⟩,
    ⟨[], "reset", 5, 1⟩, ⟨[], "minutes", 6, 8⟩, ⟨[], "seconds", 7, 6⟩, ⟨[], "status", 8, 2⟩,
    ⟨["stopwatch_top"], "clk", 1, 1⟩, ⟨["stopwatch_top"], "rst_n", 2, 1⟩,
    ⟨["stopwatch_top"], "start", 3, 1⟩, ⟨["stopwatch_top"], "stop", 4, 1⟩,
    ⟨["stopwatch_top"], "reset", 5, 1⟩, ⟨["stopwatch_top"], "minutes", 6, 8⟩,
    ⟨["stopwatch_top"], "seconds", 7, 6⟩, ⟨["stopwatch_top"], "status", 8, 2⟩,
    ⟨["stopwatch_top"], "enable", 9, 1⟩, ⟨["stopwatch_top"], "sec_overflow", 10, 1⟩,
    ⟨["stopwatch_top"], "clear_counters", 5, 1⟩,
    ⟨["stopwatch_top", "fsm"], "clk", 1, 1⟩, ⟨["stopwatch_top", "fsm"], "rst_n", 2, 1⟩,
    ⟨["stopwatch_top", "fsm"], "start", 3, 1⟩, ⟨["stopwatch_top", "fsm"], "stop", 4, 1⟩,
    ⟨["stopwatch_top", "fsm"], "reset", 5, 1⟩, ⟨["stopwatch_top", "fsm"], "enable", 9, 1⟩,
    ⟨["stopwatch_top", "fsm"], "status", 8, 2⟩, ⟨["stopwatch_top", "fsm"], "IDLE", 14, 2⟩,
    ⟨["stopwatch_top", "fsm"], "RUNNING", 15, 2⟩, ⟨["stopwatch_top", "fsm"], "PAUSED", 16, 2⟩,
    ⟨["stopwatch_top", "fsm"], "state", 11, 2⟩, ⟨["stopwatch_top", "fsm"], "next_state", 12, 2⟩,
    ⟨["stopwatch_top", "min_cnt"], "clk", 1, 1⟩, ⟨["stopwatch_top", "min_cnt"], "rst_n", 2, 1⟩,
    ⟨["stopwatch_top", "min_cnt"], "o_enable", 13, 1⟩,
    ⟨["stopwatch_top", "min_cnt"], "clear", 5, 1⟩,
    ⟨["stopwatch_top", "min_cnt"], "count", 6, 8⟩,
    ⟨["stopwatch_top", "sec_cnt"], "clk", 1, 1⟩, ⟨["stopwatch_top", "sec_cnt"], "rst_n", 2, 1⟩,
    ⟨["stopwatch_top", "sec_cnt"], "enable", 9, 1⟩,
    ⟨["stopwatch_top", "sec_cnt"], "clear", 5, 1⟩,
    ⟨["stopwatch_top", "sec_cnt"], "count", 7, 6⟩,
    ⟨["stopwatch_top", "sec_cnt"], "overflow", 10, 1⟩ ]

/-- The code offset under which the trace declares signal `name` of `scope`. -/
def trace_code (scope : List String) (name : String) : Option Nat :=
  (Vstopwatch_top___024root__trace_init_sub__TOP__0.find?
    (fun d => decide (d.scope = scope ∧ d.name = name))).map TraceDecl.code

/-- The trace buffer seen through `oldp`: the value stored at each offset. -/
abbrev TraceBuffer := Nat → Nat

/-- Call `bufp->fullBit(oldp + off, v)`: the value is stored at the offset. -/
def fullBit (bufp : TraceBuffer) (off : Nat) (v : Nat) : TraceBuffer :=
  fun k => if k = off then v else bufp k

/-- The C++ comparison `a == b` of two unsigned values, as the integer 1 or 0. -/
def eqU (a b : Nat) : Nat := if a = b then 1 else 0

/-- Call `bufp->fullCData(oldp + off, v, bits)`: the value is stored at the
offset (`bits` is the width with which it is emitted). -/
def fullCData (bufp : TraceBuffer) (off : Nat) (v : Nat) (_bits : Nat) : TraceBuffer :=
  fun k => if k = off then v else bufp k

/-- Function `Vstopwatch_top___024root__trace_const_0_sub_0` (lines 108-110). -/
def Vstopwatch_top___024root__trace_const_0_sub_0 (bufp : TraceBuffer) : TraceBuffer :=
  let bufp := fullCData bufp 14 0 2
  let bufp := fullCData bufp 15 1 2
  fullCData bufp 16 2 2

/-- Function `Vstopwatch_top___024root__trace_full_0_sub_0` (lines 131-145). -/
def Vstopwatch_top___024root__trace_full_0_sub_0 (vlSelf : Vstopwatch_top)
    (bufp : TraceBuffer) : TraceBuffer :=
  let bufp := fullBit bufp 1 vlSelf.clk
  let bufp := fullBit bufp 2 vlSelf.rst_n
  let bufp := fullBit bufp 3 vlSelf.start
  let bufp := fullBit bufp 4 vlSelf.stop
  let bufp := fullBit bufp 5 vlSelf.reset
  let bufp := fullCData bufp 6 vlSelf.minutes 8
  let bufp := fullCData bufp 7 vlSelf.seconds 6
  let bufp := fullCData bufp 8 vlSelf.status 2
  let bufp := fullBit bufp 9 (eqU 1 vlSelf.stopwatch_top__DOT__fsm__DOT__state)
  let bufp := fullBit bufp 10
    (eqU 0x3b vlSelf.seconds &&& eqU 1 vlSelf.stopwatch_top__DOT__fsm__DOT__state)
  let bufp := fullCData bufp 11 vlSelf.stopwatch_top__DOT__fsm__DOT__state 2
  let bufp := fullCData bufp 12 vlSelf.stopwatch_top__DOT__fsm__DOT__next_state 2
  fullBit bufp 13
    (eqU 1 vlSelf.stopwatch_top__DOT__fsm__DOT__state &&& eqU 0x3b vlSelf.seconds)

/-! ## Device-level view of the driver -/

/-- The device after one tick, as a function of the device before it. -/
def tick_dut (ev : Vstopwatch_top → Vstopwatch_top) (d : Vstopwatch_top) : Vstopwatch_top :=
  ev ((ev (d.set Port.clk 1)).set Port.clk 0)

/-- The device after a pulse on input `p`. -/
def pulse_dut (ev : Vstopwatch_top → Vstopwatch_top) (p : Port) (d : Vstopwatch_top) :
    Vstopwatch_top :=
  tick_dut ev ((tick_dut ev (d.set p 1)).set p 0)

/-- The events that one call of `tick` appends when it ends in device `d`. -/
def tick_events (tick_delay_us : Nat) (d : Vstopwatch_top) : List Event :=
  [Event.write Port.clk 1, Event.eval, Event.tickinc, Event.write Port.clk 0, Event.eval] ++
    (if tick_delay_us > 0 then [Event.usleep tick_delay_us] else []) ++
    [Event.status_line (status_text d)]

/-- What the status line shows: `(status, minutes, seconds)`. -/
def obs (s : Sim) : Nat × Nat × Nat := (s.dut.status, s.dut.minutes, s.dut.seconds)

/-- The status lines of a log, in order. -/
def status_lines (l : List Event) : List String :=
  l.filterMap (fun e => match e with
    | Event.status_line t => some t
    | _ => none)

/-- The device that the reset phase of `main` leaves behind its first tick. -/
def dut_reset : Vstopwatch_top :=
  { clk := 0, rst_n := 0, start := 0, stop := 0, reset := 0, minutes := 0, seconds := 0,
    status := 0, stopwatch_top__DOT__fsm__DOT__state := 0,
    stopwatch_top__DOT__fsm__DOT__next_state := 0, clk_prev := 0 }

/-- The device between two blocks of the script once master reset is released:
clock low, no input asserted, the FSM in `state`. -/
def dut_settled (state minutes seconds : Nat) : Vstopwatch_top :=
  { clk := 0, rst_n := 1, start := 0, stop := 0, reset := 0, minutes := minutes,
    seconds := seconds, status := state, stopwatch_top__DOT__fsm__DOT__state := state,
    stopwatch_top__DOT__fsm__DOT__next_state := state, clk_prev := 0 }

/-- Whether an event is a call of `usleep`. -/
def Event.is_usleep : Event → Bool
  | Event.usleep _ => true
  | _ => false

/-- A log without its pacing delays. -/
def without_usleep (l : List Event) : List Event := l.filter (fun e => !e.is_usleep)

/-! # Theorems -/

/-! ## Helper lemmas on the driver -/

theorem tick_eq (ev : Vstopwatch_top → Vstopwatch_top) (d : Nat) (s : Sim) :
    tick ev d s =
      { dut := tick_dut ev s.dut, tickcount := (s.tickcount + 1) % 2 ^ 64,
        log := s.log ++ tick_events d (tick_dut ev s.dut) } := by
  by_cases h : d > 0 <;>
    simp [tick, tick_dut, tick_events, Sim.write, Sim.eval, print_status, h]

theorem wait_cycles_from_eq (ev : Vstopwatch_top → Vstopwatch_top) (d : Nat) (cycles : Int)
    (k : Nat) : ∀ (i : Int) (s : Sim), (cycles - i).toNat = k →
      wait_cycles_from ev d cycles i s = (tick ev d)^[k] s := by
  induction k with
  | zero =>
    intro i s h
    rw [wait_cycles_from, if_neg (by omega)]
    rfl
  | succ k ih =>
    intro i s h
    rw [wait_cycles_from, if_pos (by omega), ih (i + 1) _ (by omega)]
    rfl

theorem wait_cycles_eq (ev : Vstopwatch_top → Vstopwatch_top) (d : Nat) (cycles : Int) (s : Sim) :
    wait_cycles ev d cycles s = (tick ev d)^[cycles.toNat] s := by
  unfold wait_cycles
  exact wait_cycles_from_eq ev d cycles cycles.toNat 0 s (by omega)

theorem iterate_tick_dut (ev : Vstopwatch_top → Vstopwatch_top) (d : Nat) (k : Nat) :
    ∀ s : Sim, ((tick ev d)^[k] s).dut = (tick_dut ev)^[k] s.dut := by
  induction k with
  | zero => intro s; rfl
  | succ k ih =>
    intro s
    rw [Function.iterate_succ_apply, Function.iterate_succ_apply, ih, tick_eq]

theorem iterate_tick_tickcount (ev : Vstopwatch_top → Vstopwatch_top) (d : Nat) (k : Nat) :
    ∀ s : Sim, s.tickcount < 2 ^ 64 →
      ((tick ev d)^[k] s).tickcount = (s.tickcount + k) % 2 ^ 64 := by
  induction k with
  | zero =>
    intro s h
    simp only [Function.iterate_zero, id_eq, Nat.add_zero]
    exact (Nat.mod_eq_of_lt h).symm
  | succ k ih =>
    intro s h
    rw [Function.iterate_succ_apply, ih _ (by rw [tick_eq]; exact Nat.mod_lt _ (by norm_num)),
      tick_eq]
    simp only
    omega

theorem n_ticks_append (l₁ l₂ : List Event) : n_ticks (l₁ ++ l₂) = n_ticks l₁ + n_ticks l₂ := by
  simp [n_ticks]

theorem n_status_append (l₁ l₂ : List Event) :
    n_status (l₁ ++ l₂) = n_status l₁ + n_status l₂ := by
  simp [n_status]

theorem n_ticks_tick_events (d : Nat) (x : Vstopwatch_top) : n_ticks (tick_events d x) = 1 := by
  by_cases h : d > 0 <;> simp [n_ticks, tick_events, h]

theorem n_status_tick_events (d : Nat) (x : Vstopwatch_top) : n_status (tick_events d x) = 1 := by
  by_cases h : d > 0 <;> simp [n_status, tick_events, h, Event.is_status]

theorem iterate_tick_n_ticks (ev : Vstopwatch_top → Vstopwatch_top) (d : Nat) (k : Nat) :
    ∀ s : Sim, n_ticks ((tick ev d)^[k] s).log = n_ticks s.log + k := by
  induction k with
  | zero => intro s; rfl
  | succ k ih =>
    intro s
    rw [Function.iterate_succ_apply, ih, tick_eq]
    simp only [n_ticks_append, n_ticks_tick_events]
    omega

theorem iterate_tick_n_status (ev : Vstopwatch_top → Vstopwatch_top) (d : Nat) (k : Nat) :
    ∀ s : Sim, n_status ((tick ev d)^[k] s).log = n_status s.log + k := by
  induction k with
  | zero => intro s; rfl
  | succ k ih =>
    intro s
    rw [Function.iterate_succ_apply, ih, tick_eq]
    simp only [n_status_append, n_status_tick_events]
    omega

theorem respectsPorts_eval_spec : RespectsPorts eval_spec := by
  intro d p
  cases p <;> simp only [eval_spec, Vstopwatch_top.get] <;> split <;> rfl

theorem get_set_clk (d : Vstopwatch_top) (v : Nat) (p : Port) :
    (d.set Port.clk v).get p = if p = Port.clk then v else d.get p := by
  cases p <;> simp [Vstopwatch_top.set, Vstopwatch_top.get]

theorem tick_dut_get (ev : Vstopwatch_top → Vstopwatch_top) (hev : RespectsPorts ev)
    (d : Vstopwatch_top) (p : Port) :
    (tick_dut ev d).get p = if p = Port.clk then 0 else d.get p := by
  unfold tick_dut
  rw [hev, get_set_clk]
  by_cases h : p = Port.clk
  · simp [h]
  · simp only [h, if_false]
    rw [hev, get_set_clk, if_neg h]

theorem status_str_eq (status : Nat) :
    status_str status =
      (if status = 0 then "IDLE" ++ "   " else if status = 1 then "RUNNING"
        else if status = 2 then "PAUSED" ++ " " else "UNKNOWN") := by
  rcases status with _ | _ | _ | n
  · rfl
  · rfl
  · rfl
  · simp [status_str]

theorem put_int_lt_100 (v : Nat) (h : v < 100) :
    put_int 2 '0' v = String.mk [Nat.digitChar (v / 10), Nat.digitChar (v % 10)] := by
  interval_cases v <;> rfl

theorem put_int_ge_100 (v : Nat) (h1 : 100 ≤ v) (h2 : v < 256) :
    put_int 2 '0' v =
      String.mk [Nat.digitChar (v / 100), Nat.digitChar (v / 10 % 10), Nat.digitChar (v % 10)] := by
  interval_cases v <;> rfl

theorem eqU_land_eq_one (a b c d : Nat) : eqU a b &&& eqU c d = 1 ↔ a = b ∧ c = d := by
  unfold eqU
  by_cases h1 : a = b <;> by_cases h2 : c = d <;> simp [h1, h2]

theorem eqU_land_eq_zero (a b c d : Nat) : eqU a b &&& eqU c d = 0 ↔ ¬ (a = b ∧ c = d) := by
  unfold eqU
  by_cases h1 : a = b <;> by_cases h2 : c = d <;> simp [h1, h2]

theorem eqU_land_comm (a b c d : Nat) : eqU a b &&& eqU c d = (eqU c d &&& eqU a b) := by
  unfold eqU
  by_cases h1 : a = b <;> by_cases h2 : c = d <;> simp [h1, h2]

theorem eqU_eq_one (a b : Nat) : eqU a b = 1 ↔ a = b := by
  unfold eqU
  by_cases h1 : a = b <;> simp [h1]

theorem trace_full_9 (vlSelf : Vstopwatch_top) (bufp : TraceBuffer) :
    Vstopwatch_top___024root__trace_full_0_sub_0 vlSelf bufp 9 =
      eqU 1 vlSelf.stopwatch_top__DOT__fsm__DOT__state := by
  simp [Vstopwatch_top___024root__trace_full_0_sub_0, fullBit, fullCData]

theorem trace_full_10 (vlSelf : Vstopwatch_top) (bufp : TraceBuffer) :
    Vstopwatch_top___024root__trace_full_0_sub_0 vlSelf bufp 10 =
      (eqU 0x3b vlSelf.seconds &&& eqU 1 vlSelf.stopwatch_top__DOT__fsm__DOT__state) := by
  simp [Vstopwatch_top___024root__trace_full_0_sub_0, fullBit, fullCData]

theorem trace_full_13 (vlSelf : Vstopwatch_top) (bufp : TraceBuffer) :
    Vstopwatch_top___024root__trace_full_0_sub_0 vlSelf bufp 13 =
      (eqU 1 vlSelf.stopwatch_top__DOT__fsm__DOT__state &&& eqU 0x3b vlSelf.seconds) := by
  simp [Vstopwatch_top___024root__trace_full_0_sub_0, fullBit, fullCData]

/-! ## Unrolling the loops of `main` -/

theorem count_loop_from_step (ev : Vstopwatch_top → Vstopwatch_top) (d : Nat) (n i : Int)
    (s : Sim) (h : i < n) :
    count_loop_from ev d n i s =
      count_loop_from ev d n (i + 1)
        (if (i + 1) % 5 = 0 then (wait_cycles ev d 1 s).cout "  " else wait_cycles ev d 1 s) := by
  rw [count_loop_from, if_pos h]

theorem count_loop_from_done (ev : Vstopwatch_top → Vstopwatch_top) (d : Nat) (n i : Int)
    (s : Sim) (h : ¬ i < n) : count_loop_from ev d n i s = s := by
  rw [count_loop_from, if_neg h]

theorem rollover_loop_from_step (ev : Vstopwatch_top → Vstopwatch_top) (d : Nat) (n i : Int)
    (s : Sim) (h : i < n) :
    rollover_loop_from ev d n i s =
      rollover_loop_from ev d n (i + 1) ((wait_cycles ev d 1 s).cout "  ") := by
  rw [rollover_loop_from, if_pos h]

theorem rollover_loop_from_done (ev : Vstopwatch_top → Vstopwatch_top) (d : Nat) (n i : Int)
    (s : Sim) (h : ¬ i < n) : rollover_loop_from ev d n i s = s := by
  rw [rollover_loop_from, if_neg h]

/-! ## Projections of the statements of `main` -/

theorem write_dut (s : Sim) (p : Port) (v : Nat) : (s.write p v).dut = s.dut.set p v := rfl

theorem cout_dut (s : Sim) (t : String) : (s.cout t).dut = s.dut := rfl

theorem eval_dut (ev : Vstopwatch_top → Vstopwatch_top) (s : Sim) : (s.eval ev).dut = ev s.dut := rfl

theorem tick_dut_eq (ev : Vstopwatch_top → Vstopwatch_top) (d : Nat) (s : Sim) :
    (tick ev d s).dut = tick_dut ev s.dut := by
  rw [tick_eq]

theorem first_tick_eval_spec (x : Vstopwatch_top) :
    tick_dut eval_spec
      (eval_spec
        (((((x.set Port.rst_n 0).set Port.start 0).set Port.stop 0).set Port.reset 0).set
          Port.clk 0)) = dut_reset := by
  simp [tick_dut, eval_spec, Vstopwatch_top.set, fsm_next, sec_next, min_next, dut_reset, IDLE]

theorem wait_cycles_dut (ev : Vstopwatch_top → Vstopwatch_top) (d : Nat) (cycles : Int) (s : Sim) :
    (wait_cycles ev d cycles s).dut = (tick_dut ev)^[cycles.toNat] s.dut := by
  rw [wait_cycles_eq, iterate_tick_dut]

theorem pulse_dut_eq (ev : Vstopwatch_top → Vstopwatch_top) (d : Nat) (p : Port) (s : Sim) :
    (pulse ev d p s).dut = pulse_dut ev p s.dut := by
  simp only [pulse, pulse_dut, tick_dut_eq, write_dut]

theorem count_loop_from_dut (ev : Vstopwatch_top → Vstopwatch_top) (d : Nat) (n : Int)
    (k : Nat) : ∀ (i : Int) (s : Sim), (n - i).toNat = k →
      (count_loop_from ev d n i s).dut = (tick_dut ev)^[k] s.dut := by
  induction k with
  | zero =>
    intro i s h
    rw [count_loop_from_done _ _ _ _ _ (by omega)]
    rfl
  | succ k ih =>
    intro i s h
    rw [count_loop_from_step _ _ _ _ _ (by omega), ih (i + 1) _ (by omega),
      Function.iterate_succ_apply]
    congr 1
    split
    · rw [cout_dut, wait_cycles_dut]; rfl
    · rw [wait_cycles_dut]; rfl

theorem rollover_loop_from_dut (ev : Vstopwatch_top → Vstopwatch_top) (d : Nat) (n : Int)
    (k : Nat) : ∀ (i : Int) (s : Sim), (n - i).toNat = k →
      (rollover_loop_from ev d n i s).dut = (tick_dut ev)^[k] s.dut := by
  induction k with
  | zero =>
    intro i s h
    rw [rollover_loop_from_done _ _ _ _ _ (by omega)]
    rfl
  | succ k ih =>
    intro i s h
    rw [rollover_loop_from_step _ _ _ _ _ (by omega), ih (i + 1) _ (by omega),
      Function.iterate_succ_apply, cout_dut, wait_cycles_dut]
    rfl

theorem iterate_two {α : Type} (f : α → α) (x : α) : f^[2] x = f (f x) := rfl

theorem tick_settled_running (m sec : Nat) :
    tick_dut eval_spec (dut_settled 1 m sec) =
      dut_settled 1 (if sec = 59 then (m + 1) % 256 else m) (if sec = 59 then 0 else sec + 1) := by
  by_cases h : sec = 59 <;>
    simp [tick_dut, eval_spec, dut_settled, Vstopwatch_top.set, fsm_next, sec_next, min_next,
      IDLE, RUNNING, PAUSED, h]

theorem tick_settled_not_running (state m sec : Nat) (h : state ≠ 1) :
    tick_dut eval_spec (dut_settled state m sec) = dut_settled state m sec := by
  simp only [tick_dut, eval_spec, dut_settled, Vstopwatch_top.set, fsm_next, sec_next, min_next,
    IDLE, RUNNING, PAUSED]
  by_cases h0 : state = 0
  · simp [h0]
  · by_cases h2 : state = 2
    · simp [h2]
    · simp [h, h0, h2]

theorem iterate_settled_running (k : Nat) : ∀ (m sec : Nat), m < 256 → sec < 60 →
    (tick_dut eval_spec)^[k] (dut_settled 1 m sec) =
      dut_settled 1 ((m + (sec + k) / 60) % 256) ((sec + k) % 60) := by
  induction k with
  | zero =>
    intro m sec hm hs
    have h1 : (m + (sec + 0) / 60) % 256 = m := by omega
    have h2 : (sec + 0) % 60 = sec := by omega
    rw [h1, h2]
    rfl
  | succ k ih =>
    intro m sec hm hs
    rw [Function.iterate_succ_apply', ih m sec hm hs, tick_settled_running]
    congr 1
    · split <;> omega
    · split <;> omega

theorem iterate_settled_not_running (k : Nat) (state m sec : Nat) (h : state ≠ 1) :
    (tick_dut eval_spec)^[k] (dut_settled state m sec) = dut_settled state m sec := by
  induction k with
  | zero => rfl
  | succ k ih => rw [Function.iterate_succ_apply', ih, tick_settled_not_running _ _ _ h]

theorem main_init_dut (ev : Vstopwatch_top → Vstopwatch_top) (s : Sim) :
    (main_init ev s).dut =
      ev (((((s.dut.set Port.rst_n 0).set Port.start 0).set Port.stop 0).set Port.reset 0).set
        Port.clk 0) := by
  unfold main_init
  rw [eval_dut, write_dut, write_dut, write_dut, write_dut, write_dut, cout_dut, cout_dut]

theorem main_apply_reset_dut (ev : Vstopwatch_top → Vstopwatch_top) (d : Nat) (s : Sim) :
    (main_apply_reset ev d s).dut =
      tick_dut ev (tick_dut ev ((tick_dut ev (tick_dut ev s.dut)).set Port.rst_n 1)) := by
  have h2 : (2 : Int).toNat = 2 := rfl
  unfold main_apply_reset
  rw [cout_dut, wait_cycles_dut, write_dut, wait_cycles_dut, cout_dut, h2, iterate_two,
    iterate_two]

theorem main_test1_start_dut (ev : Vstopwatch_top → Vstopwatch_top) (d : Nat) (s : Sim) :
    (main_test1_start ev d s).dut = pulse_dut ev Port.start s.dut := by
  unfold main_test1_start
  rw [pulse_dut_eq, cout_dut]

theorem main_test1_count_dut (ev : Vstopwatch_top → Vstopwatch_top) (d : Nat) (s : Sim) :
    (main_test1_count ev d s).dut = (tick_dut ev)^[10] s.dut := by
  unfold main_test1_count
  rw [cout_dut, count_loop_from_dut ev d 10 10 0 _ rfl, cout_dut]

theorem main_test2_stop_dut (ev : Vstopwatch_top → Vstopwatch_top) (d : Nat) (s : Sim) :
    (main_test2_stop ev d s).dut = pulse_dut ev Port.stop s.dut := by
  unfold main_test2_stop
  rw [pulse_dut_eq, cout_dut]

theorem main_test2_wait_dut (ev : Vstopwatch_top → Vstopwatch_top) (d : Nat) (s : Sim) :
    (main_test2_wait ev d s).dut = (tick_dut ev)^[5] s.dut := by
  have h5 : (5 : Int).toNat = 5 := rfl
  unfold main_test2_wait
  rw [cout_dut, cout_dut, wait_cycles_dut, cout_dut, h5]

theorem main_test3_start_dut (ev : Vstopwatch_top → Vstopwatch_top) (d : Nat) (s : Sim) :
    (main_test3_start ev d s).dut = pulse_dut ev Port.start s.dut := by
  unfold main_test3_start
  rw [pulse_dut_eq, cout_dut]

theorem main_test3_count_dut (ev : Vstopwatch_top → Vstopwatch_top) (d : Nat) (s : Sim) :
    (main_test3_count ev d s).dut = (tick_dut ev)^[15] s.dut := by
  unfold main_test3_count
  rw [cout_dut, count_loop_from_dut ev d 15 15 0 _ rfl, cout_dut]

theorem main_test4_forward_dut (ev : Vstopwatch_top → Vstopwatch_top) (d : Nat) (s : Sim) :
    (main_test4_forward ev d s).dut = (tick_dut ev)^[30] s.dut := by
  have h30 : ((58 : Int) - 28).toNat = 30 := rfl
  unfold main_test4_forward
  rw [cout_dut, wait_cycles_dut, cout_dut, h30]

theorem main_test4_rollover_dut (ev : Vstopwatch_top → Vstopwatch_top) (d : Nat) (s : Sim) :
    (main_test4_rollover ev d s).dut = (tick_dut ev)^[5] s.dut := by
  unfold main_test4_rollover
  rw [cout_dut, rollover_loop_from_dut ev d 5 5 0 _ rfl, cout_dut]

theorem main_final_reset_dut (ev : Vstopwatch_top → Vstopwatch_top) (d : Nat) (s : Sim) :
    (main_final_reset ev d s).dut = pulse_dut ev Port.reset s.dut := by
  unfold main_final_reset
  rw [pulse_dut_eq, cout_dut]

theorem upto_reset_dut (d : Nat) (dut0 : Vstopwatch_top) :
    (main_upto_reset eval_spec d dut0).dut = dut_settled 0 0 0 := by
  rw [main_upto_reset, main_apply_reset_dut, main_upto_init, main_init_dut, first_tick_eval_spec]
  decide

theorem upto_start_dut (d : Nat) (dut0 : Vstopwatch_top) :
    (main_upto_start eval_spec d dut0).dut = dut_settled 1 0 1 := by
  rw [main_upto_start, main_test1_start_dut, upto_reset_dut]
  decide

theorem upto_count10_dut (d : Nat) (dut0 : Vstopwatch_top) :
    (main_upto_count10 eval_spec d dut0).dut = dut_settled 1 0 11 := by
  rw [main_upto_count10, main_test1_count_dut, upto_start_dut,
    iterate_settled_running 10 0 1 (by norm_num) (by norm_num)]

theorem upto_stop_dut (d : Nat) (dut0 : Vstopwatch_top) :
    (main_upto_stop eval_spec d dut0).dut = dut_settled 2 0 12 := by
  rw [main_upto_stop, main_test2_stop_dut, upto_count10_dut]
  decide

theorem upto_paused5_dut (d : Nat) (dut0 : Vstopwatch_top) :
    (main_upto_paused5 eval_spec d dut0).dut = dut_settled 2 0 12 := by
  rw [main_upto_paused5, main_test2_wait_dut, upto_stop_dut,
    iterate_settled_not_running _ 2 0 12 (by norm_num)]

theorem upto_resume_dut (d : Nat) (dut0 : Vstopwatch_top) :
    (main_upto_resume eval_spec d dut0).dut = dut_settled 1 0 13 := by
  rw [main_upto_resume, main_test3_start_dut, upto_paused5_dut]
  decide

theorem upto_count15_dut (d : Nat) (dut0 : Vstopwatch_top) :
    (main_upto_count15 eval_spec d dut0).dut = dut_settled 1 0 28 := by
  rw [main_upto_count15, main_test3_count_dut, upto_resume_dut,
    iterate_settled_running 15 0 13 (by norm_num) (by norm_num)]

theorem upto_forward_dut (d : Nat) (dut0 : Vstopwatch_top) :
    (main_upto_forward eval_spec d dut0).dut = dut_settled 1 0 58 := by
  rw [main_upto_forward, main_test4_forward_dut, upto_count15_dut,
    iterate_settled_running 30 0 28 (by norm_num) (by norm_num)]

theorem upto_rollover_dut (d : Nat) (dut0 : Vstopwatch_top) :
    (main_upto_rollover eval_spec d dut0).dut = dut_settled 1 1 3 := by
  rw [main_upto_rollover, main_test4_rollover_dut, upto_forward_dut,
    iterate_settled_running 5 0 58 (by norm_num) (by norm_num)]

theorem script_dut (d : Nat) (dut0 : Vstopwatch_top) :
    (main_script eval_spec d dut0).dut = dut_settled 0 0 0 := by
  rw [main_script, main_final_reset_dut, upto_rollover_dut]
  decide

/-! ## The claims -/

/-- C1 (amended): one call of `tick` performs, in this order, `clk = 1` and
`eval`, the increment of the tick counter, `clk = 0` and `eval`, the pacing
delay when `tick_delay_us > 0`, and exactly one status report of the device it
ends in.  The tick counter becomes `(t + 1) mod 2 ^ 64`, which is `t + 1`
whenever `t + 1` fits in 64 bits.  `tick` itself assigns to no input line, and
on a device whose `eval` leaves the ports alone it returns with `clk = 0` and
`rst_n`, `start`, `stop`, `reset` unchanged. -/
theorem tick_contract (ev : Vstopwatch_top → Vstopwatch_top) (tick_delay_us : Nat) (s : Sim)
    (hev : RespectsPorts ev) :
    (tick ev tick_delay_us s).log =
      s.log ++
        ([Event.write Port.clk 1, Event.eval, Event.tickinc, Event.write Port.clk 0, Event.eval] ++
          (if tick_delay_us > 0 then [Event.usleep tick_delay_us] else []) ++
          [Event.status_line (status_text (tick ev tick_delay_us s).dut)]) ∧
    (tick ev tick_delay_us s).dut = ev ((ev (s.dut.set Port.clk 1)).set Port.clk 0) ∧
    (tick ev tick_delay_us s).tickcount = (s.tickcount + 1) % 2 ^ 64 ∧
    (s.tickcount + 1 < 2 ^ 64 → (tick ev tick_delay_us s).tickcount = s.tickcount + 1) ∧
    (tick ev tick_delay_us s).dut.clk = 0 ∧
    (∀ e ∈ ((tick ev tick_delay_us s).log.drop s.log.length), e.writes_input = false) ∧
    (tick ev tick_delay_us s).dut.rst_n = s.dut.rst_n ∧
    (tick ev tick_delay_us s).dut.start = s.dut.start ∧
    (tick ev tick_delay_us s).dut.stop = s.dut.stop ∧
    (tick ev tick_delay_us s).dut.reset = s.dut.reset := by
  have hp := tick_dut_get ev hev s.dut
  rw [tick_eq]
  refine ⟨rfl, rfl, rfl, ?_, ?_, ?_, ?_, ?_, ?_, ?_⟩
  · intro h
    exact Nat.mod_eq_of_lt h
  · exact hp Port.clk
  · rw [List.drop_left]
    by_cases h : tick_delay_us > 0 <;> simp [tick_events, h, Event.writes_input]
  · exact hp Port.rst_n
  · exact hp Port.start
  · exact hp Port.stop
  · exact hp Port.reset

/-- C1, witness: the device of the specification respects the ports, and the
first tick of a run takes the counter from 0 to 1 and leaves `clk = 0`. -/
theorem tick_contract_witness :
    RespectsPorts eval_spec ∧
    (tick eval_spec tick_delay_us_default { dut := dut_new, tickcount := 0, log := [] }).tickcount
      = 1 ∧
    (tick eval_spec tick_delay_us_default { dut := dut_new, tickcount := 0, log := [] }).dut.clk
      = 0 :=
  ⟨respectsPorts_eval_spec,
    (tick_contract eval_spec tick_delay_us_default { dut := dut_new, tickcount := 0, log := [] }
      respectsPorts_eval_spec).2.2.1,
    (tick_contract eval_spec tick_delay_us_default { dut := dut_new, tickcount := 0, log := [] }
      respectsPorts_eval_spec).2.2.2.2.1⟩

/-- C1, counterexample: at the largest 64-bit counter value the tick counter
returns to 0 and is not `t + 1`. -/
theorem tick_counter_wraps :
    (tick eval_spec 0 { dut := dut_new, tickcount := 18446744073709551615, log := [] }).tickcount
      = 0 ∧
    (tick eval_spec 0 { dut := dut_new, tickcount := 18446744073709551615, log := [] }).tickcount
      ≠ 18446744073709551615 + 1 := by
  rw [tick_eq]
  constructor <;> norm_num

/-- C2 (amended): for every `cycles`, `wait_cycles` is the `cycles`-fold
iteration of `tick` (none for `cycles <= 0`): it performs exactly that many
counter increments and status reports, the device is the iterated device, and
the tick counter becomes `(t + cycles) mod 2 ^ 64`, which is `t + cycles`
whenever that fits in 64 bits. -/
theorem wait_cycles_contract (ev : Vstopwatch_top → Vstopwatch_top) (tick_delay_us : Nat)
    (cycles : Int) (s : Sim) (ht : s.tickcount < 2 ^ 64) :
    wait_cycles ev tick_delay_us cycles s = (tick ev tick_delay_us)^[cycles.toNat] s ∧
    (wait_cycles ev tick_delay_us cycles s).dut = (tick_dut ev)^[cycles.toNat] s.dut ∧
    n_ticks (wait_cycles ev tick_delay_us cycles s).log = n_ticks s.log + cycles.toNat ∧
    n_status (wait_cycles ev tick_delay_us cycles s).log = n_status s.log + cycles.toNat ∧
    (wait_cycles ev tick_delay_us cycles s).tickcount = (s.tickcount + cycles.toNat) % 2 ^ 64 ∧
    (s.tickcount + cycles.toNat < 2 ^ 64 →
      (wait_cycles ev tick_delay_us cycles s).tickcount = s.tickcount + cycles.toNat) ∧
    (cycles ≤ 0 → wait_cycles ev tick_delay_us cycles s = s) := by
  have hw := wait_cycles_eq ev tick_delay_us cycles s
  have htc := iterate_tick_tickcount ev tick_delay_us cycles.toNat s ht
  refine ⟨hw, ?_, ?_, ?_, ?_, ?_, ?_⟩
  · rw [hw, iterate_tick_dut]
  · rw [hw, iterate_tick_n_ticks]
  · rw [hw, iterate_tick_n_status]
  · rw [hw, htc]
  · intro h
    rw [hw, htc, Nat.mod_eq_of_lt h]
  · intro h
    rw [hw, Int.toNat_of_nonpos h]
    rfl

/-- C2, witness: three cycles from a fresh run. -/
theorem wait_cycles_contract_witness :
    (0 : Nat) < 2 ^ 64 ∧
    (wait_cycles eval_spec 0 3 { dut := dut_new, tickcount := 0, log := [] }).tickcount = 3 ∧
    n_status (wait_cycles eval_spec 0 3 { dut := dut_new, tickcount := 0, log := [] }).log = 3 :=
  ⟨by norm_num,
    (wait_cycles_contract eval_spec 0 3 { dut := dut_new, tickcount := 0, log := [] }
      (by norm_num)).2.2.2.2.1,
    (wait_cycles_contract eval_spec 0 3 { dut := dut_new, tickcount := 0, log := [] }
      (by norm_num)).2.2.2.1⟩

/-- C2, counterexample: one cycle at the largest 64-bit counter value leaves
the tick counter at 0, so it did not grow by 1. -/
theorem wait_cycles_counter_wraps :
    (wait_cycles eval_spec 0 1
      { dut := dut_new, tickcount := 18446744073709551615, log := [] }).tickcount = 0 ∧
    (wait_cycles eval_spec 0 1
      { dut := dut_new, tickcount := 18446744073709551615, log := [] }).tickcount
      ≠ 18446744073709551615 + 1 := by
  have h1 : (1 : Int).toNat = 1 := rfl
  rw [wait_cycles_eq, h1, Function.iterate_one, tick_eq]
  constructor <;> norm_num

/-- C3 (amended): for every state of the run, `print_status` reports exactly
one line, `Status: ` followed by the status text of the device's `status`,
then ` | Time: `, the time part and a newline, and changes nothing else.  The
status text is `IDLE` followed by three blanks for code 0, `RUNNING` for code
1, `PAUSED` followed by one blank for code 2 and `UNKNOWN` for every other
code, seven characters in each case; the codes 0, 1, 2 are the values that the
trace records for the FSM constants `IDLE`, `RUNNING`, `PAUSED`. -/
theorem status_str_cases (s : Sim) (status : Nat) (bufp : TraceBuffer) :
    (print_status s).log =
      s.log ++
        [Event.status_line
          ("Status: " ++
            (if s.dut.status = 0 then "IDLE" ++ "   " else if s.dut.status = 1 then "RUNNING"
              else if s.dut.status = 2 then "PAUSED" ++ " " else "UNKNOWN") ++
            " | Time: " ++ time_str s.dut.minutes s.dut.seconds ++ "\n")] ∧
    (print_status s).dut = s.dut ∧
    (print_status s).tickcount = s.tickcount ∧
    status_str status =
      (if status = 0 then "IDLE" ++ "   " else if status = 1 then "RUNNING"
        else if status = 2 then "PAUSED" ++ " " else "UNKNOWN") ∧
    (status_str status).length = 7 ∧
    trace_code ["stopwatch_top", "fsm"] "IDLE" = some 14 ∧
    trace_code ["stopwatch_top", "fsm"] "RUNNING" = some 15 ∧
    trace_code ["stopwatch_top", "fsm"] "PAUSED" = some 16 ∧
    Vstopwatch_top___024root__trace_const_0_sub_0 bufp 14 = 0 ∧
    Vstopwatch_top___024root__trace_const_0_sub_0 bufp 15 = 1 ∧
    Vstopwatch_top___024root__trace_const_0_sub_0 bufp 16 = 2 ∧
    status_str (Vstopwatch_top___024root__trace_const_0_sub_0 bufp 14) = "IDLE   " ∧
    status_str (Vstopwatch_top___024root__trace_const_0_sub_0 bufp 15) = "RUNNING" ∧
    status_str (Vstopwatch_top___024root__trace_const_0_sub_0 bufp 16) = "PAUSED " := by
  refine ⟨?_, rfl, rfl, status_str_eq status, ?_, by decide, by decide, by decide,
    rfl, rfl, rfl, rfl, rfl, rfl⟩
  · rw [← status_str_eq s.dut.status]
    rfl
  · rcases status with _ | _ | _ | n <;> rfl

/-- C3, counterexample: for a device with status code 0 at 00:00 the reported
line carries `IDLE` with three blanks, not the bare word, and the status text
for codes 0 and 2 is not the bare word `IDLE` or `PAUSED`. -/
theorem status_str_padded :
    (print_status { dut := dut_settled 0 0 0, tickcount := 0, log := [] }).log =
      [Event.status_line "Status: IDLE    | Time: 00:00\n"] ∧
    (print_status { dut := dut_settled 0 0 0, tickcount := 0, log := [] }).log ≠
      [Event.status_line "Status: IDLE | Time: 00:00\n"] ∧
    status_str 0 ≠ "IDLE" ∧ status_str 2 ≠ "PAUSED" := by
  refine ⟨by decide, by decide, by decide, by decide⟩

/-- C4 (amended): for every state of the run whose device has minutes in
0..255 and seconds in 0..59, the line that `print_status` reports ends, after
` | Time: `, in the time part and a newline.  For minutes in 0..99 the time
part is two zero-padded decimal digits of minutes, a colon and two zero-padded
decimal digits of seconds, five characters; for minutes in 100..255 the
minutes field is written in full with three digits, six characters in total. -/
theorem time_str_format (s : Sim) (hm : s.dut.minutes < 256) (hs : s.dut.seconds < 60) :
    (s.dut.minutes < 100 →
      (print_status s).log =
        s.log ++
          [Event.status_line
            ("Status: " ++ status_str s.dut.status ++ " | Time: " ++
              String.mk [Nat.digitChar (s.dut.minutes / 10), Nat.digitChar (s.dut.minutes % 10),
                ':', Nat.digitChar (s.dut.seconds / 10), Nat.digitChar (s.dut.seconds % 10)] ++
              "\n")] ∧
      time_str s.dut.minutes s.dut.seconds =
        String.mk [Nat.digitChar (s.dut.minutes / 10), Nat.digitChar (s.dut.minutes % 10), ':',
          Nat.digitChar (s.dut.seconds / 10), Nat.digitChar (s.dut.seconds % 10)] ∧
      (time_str s.dut.minutes s.dut.seconds).length = 5) ∧
    (100 ≤ s.dut.minutes →
      (print_status s).log =
        s.log ++
          [Event.status_line
            ("Status: " ++ status_str s.dut.status ++ " | Time: " ++
              String.mk [Nat.digitChar (s.dut.minutes / 100),
                Nat.digitChar (s.dut.minutes / 10 % 10), Nat.digitChar (s.dut.minutes % 10),
                ':', Nat.digitChar (s.dut.seconds / 10), Nat.digitChar (s.dut.seconds % 10)] ++
              "\n")] ∧
      time_str s.dut.minutes s.dut.seconds =
        String.mk [Nat.digitChar (s.dut.minutes / 100), Nat.digitChar (s.dut.minutes / 10 % 10),
          Nat.digitChar (s.dut.minutes % 10), ':',
          Nat.digitChar (s.dut.seconds / 10), Nat.digitChar (s.dut.seconds % 10)] ∧
      (time_str s.dut.minutes s.dut.seconds).length = 6) := by
  have hsec := put_int_lt_100 s.dut.seconds (by omega)
  constructor
  · intro h
    have hmin := put_int_lt_100 s.dut.minutes h
    have ht : time_str s.dut.minutes s.dut.seconds =
        String.mk [Nat.digitChar (s.dut.minutes / 10), Nat.digitChar (s.dut.minutes % 10), ':',
          Nat.digitChar (s.dut.seconds / 10), Nat.digitChar (s.dut.seconds % 10)] := by
      simp only [time_str, hmin, hsec]
      rfl
    refine ⟨?_, ht, ?_⟩
    · rw [← ht]
      rfl
    · rw [ht]
      rfl
  · intro h
    have hmin := put_int_ge_100 s.dut.minutes h hm
    have ht : time_str s.dut.minutes s.dut.seconds =
        String.mk [Nat.digitChar (s.dut.minutes / 100), Nat.digitChar (s.dut.minutes / 10 % 10),
          Nat.digitChar (s.dut.minutes % 10), ':',
          Nat.digitChar (s.dut.seconds / 10), Nat.digitChar (s.dut.seconds % 10)] := by
      simp only [time_str, hmin, hsec]
      rfl
    refine ⟨?_, ht, ?_⟩
    · rw [← ht]
      rfl
    · rw [ht]
      rfl

/-- C4, witness: for a device at 7 minutes 5 seconds the reported line ends in
`07:05`. -/
theorem time_str_format_witness :
    (dut_settled 0 7 5).minutes < 256 ∧ (dut_settled 0 7 5).seconds < 60 ∧
    (print_status { dut := dut_settled 0 7 5, tickcount := 0, log := [] }).log =
      [Event.status_line "Status: IDLE    | Time: 07:05\n"] ∧
    time_str 7 5 = "07:05" ∧ (time_str 7 5).length = 5 :=
  ⟨by decide, by decide,
    ((time_str_format { dut := dut_settled 0 7 5, tickcount := 0, log := [] }
      (by decide) (by decide)).1 (by decide)).1,
    ((time_str_format { dut := dut_settled 0 7 5, tickcount := 0, log := [] }
      (by decide) (by decide)).1 (by decide)).2.1,
    ((time_str_format { dut := dut_settled 0 7 5, tickcount := 0, log := [] }
      (by decide) (by decide)).1 (by decide)).2.2⟩

/-- C4, counterexample: for a device at 100 minutes 0 seconds the reported line
ends in `100:00`, a time part of six characters. -/
theorem time_str_three_digits :
    (dut_settled 0 100 0).minutes < 256 ∧ (dut_settled 0 100 0).seconds < 60 ∧
    (print_status { dut := dut_settled 0 100 0, tickcount := 0, log := [] }).log =
      [Event.status_line "Status: IDLE    | Time: 100:00\n"] ∧
    time_str 100 0 = "100:00" ∧ (time_str 100 0).length ≠ 5 := by
  refine ⟨by decide, by decide, by decide, by decide, by decide⟩

/-- C6: the trace declares `enable` (of the top module, of `fsm` and of
`sec_cnt`) under code 9, and the value that the snapshot stores there is 1
exactly when the FSM state register is 1 (Running), and 0 otherwise; so it is
0 for the codes 0, 2 and 3. -/
theorem trace_enable (vlSelf : Vstopwatch_top) (bufp : TraceBuffer) :
    trace_code ["stopwatch_top"] "enable" = some 9 ∧
    trace_code ["stopwatch_top", "fsm"] "enable" = some 9 ∧
    trace_code ["stopwatch_top", "sec_cnt"] "enable" = some 9 ∧
    (Vstopwatch_top___024root__trace_full_0_sub_0 vlSelf bufp 9 = 1 ↔
      vlSelf.stopwatch_top__DOT__fsm__DOT__state = 1) ∧
    (Vstopwatch_top___024root__trace_full_0_sub_0 vlSelf bufp 9 = 0 ↔
      vlSelf.stopwatch_top__DOT__fsm__DOT__state ≠ 1) ∧
    (vlSelf.stopwatch_top__DOT__fsm__DOT__state = 0 ∨
      vlSelf.stopwatch_top__DOT__fsm__DOT__state = 2 ∨
      vlSelf.stopwatch_top__DOT__fsm__DOT__state = 3 →
        Vstopwatch_top___024root__trace_full_0_sub_0 vlSelf bufp 9 = 0) := by
  rw [trace_full_9]
  refine ⟨by decide, by decide, by decide, ?_, ?_, ?_⟩
  · unfold eqU
    split <;> omega
  · unfold eqU
    split <;> omega
  · intro h
    unfold eqU
    split <;> omega

/-- C7: the trace declares the second counter's `overflow` (and the top
module's `sec_overflow`) under code 10 and the minute counter's `o_enable`
under code 13.  The value stored under code 10 is 1 exactly when
`seconds == 59` and the state register is Running, that is when
`seconds == 59` and the stored `enable` is 1, and 0 otherwise; the value stored
under code 13 is always the same as the one under code 10. -/
theorem trace_overflow (vlSelf : Vstopwatch_top) (bufp : TraceBuffer) :
    trace_code ["stopwatch_top", "sec_cnt"] "overflow" = some 10 ∧
    trace_code ["stopwatch_top"] "sec_overflow" = some 10 ∧
    trace_code ["stopwatch_top", "min_cnt"] "o_enable" = some 13 ∧
    (Vstopwatch_top___024root__trace_full_0_sub_0 vlSelf bufp 10 = 1 ↔
      vlSelf.seconds = 59 ∧ vlSelf.stopwatch_top__DOT__fsm__DOT__state = 1) ∧
    (Vstopwatch_top___024root__trace_full_0_sub_0 vlSelf bufp 10 = 1 ↔
      vlSelf.seconds = 59 ∧ Vstopwatch_top___024root__trace_full_0_sub_0 vlSelf bufp 9 = 1) ∧
    (Vstopwatch_top___024root__trace_full_0_sub_0 vlSelf bufp 10 = 0 ↔
      ¬ (vlSelf.seconds = 59 ∧ vlSelf.stopwatch_top__DOT__fsm__DOT__state = 1)) ∧
    Vstopwatch_top___024root__trace_full_0_sub_0 vlSelf bufp 13 =
      Vstopwatch_top___024root__trace_full_0_sub_0 vlSelf bufp 10 := by
  rw [trace_full_9, trace_full_10, trace_full_13, eqU_land_eq_one, eqU_land_eq_zero, eqU_eq_one]
  refine ⟨by decide, by decide, by decide, ?_, ?_, ?_, ?_⟩
  · constructor <;> rintro ⟨h1, h2⟩ <;> exact ⟨h1.symm, h2.symm⟩
  · constructor <;> rintro ⟨h1, h2⟩ <;> exact ⟨h1.symm, h2⟩
  · constructor <;> intro h <;> rintro ⟨h1, h2⟩ <;> exact h ⟨h1.symm, h2.symm⟩
  · exact eqU_land_comm _ _ _ _

/-- C5 (amended, on the device modelled from sections 4.1 to 4.4 of the
specification): for every pacing delay and every freshly constructed device,
the script of `main` reaches these checkpoints, written `(status, minutes,
seconds)`: Idle 00:00 after the reset phase; Running 00:01 after the start
pulse and its clear tick; Running 00:11 after the 10 ticks; Paused 00:12 after
the stop pulse and its clear tick, and still Paused 00:12 after any number of
further ticks and after the 5 paused ticks; Running 00:13 after the second
start pulse; Running 00:28 after the 15 ticks; Running 00:58 after the
`58-28` ticks; Running 01:03 after the 5 ticks across the rollover; Idle 00:00
after the final local reset. -/
theorem scenario_checkpoints (tick_delay_us : Nat) (dut0 : Vstopwatch_top) :
    obs (main_upto_reset eval_spec tick_delay_us dut0) = (0, 0, 0) ∧
    obs (main_upto_start eval_spec tick_delay_us dut0) = (1, 0, 1) ∧
    obs (main_upto_count10 eval_spec tick_delay_us dut0) = (1, 0, 11) ∧
    obs (main_upto_stop eval_spec tick_delay_us dut0) = (2, 0, 12) ∧
    (∀ k : Nat, obs ((tick eval_spec tick_delay_us)^[k]
      (main_upto_stop eval_spec tick_delay_us dut0)) = (2, 0, 12)) ∧
    obs (main_upto_paused5 eval_spec tick_delay_us dut0) = (2, 0, 12) ∧
    obs (main_upto_resume eval_spec tick_delay_us dut0) = (1, 0, 13) ∧
    obs (main_upto_count15 eval_spec tick_delay_us dut0) = (1, 0, 28) ∧
    obs (main_upto_forward eval_spec tick_delay_us dut0) = (1, 0, 58) ∧
    obs (main_upto_rollover eval_spec tick_delay_us dut0) = (1, 1, 3) ∧
    obs (main_script eval_spec tick_delay_us dut0) = (0, 0, 0) := by
  refine ⟨?_, ?_, ?_, ?_, ?_, ?_, ?_, ?_, ?_, ?_, ?_⟩
  · rw [obs, upto_reset_dut]; rfl
  · rw [obs, upto_start_dut]; rfl
  · rw [obs, upto_count10_dut]; rfl
  · rw [obs, upto_stop_dut]; rfl
  · intro k
    rw [obs, iterate_tick_dut, upto_stop_dut, iterate_settled_not_running k 2 0 12 (by norm_num)]
    rfl
  · rw [obs, upto_paused5_dut]; rfl
  · rw [obs, upto_resume_dut]; rfl
  · rw [obs, upto_count15_dut]; rfl
  · rw [obs, upto_forward_dut]; rfl
  · rw [obs, upto_rollover_dut]; rfl
  · rw [obs, script_dut]; rfl

/-- C5, counterexample: on the device of the specification, with the default
delay and a fresh device, the run is not at Running 00:10 after the 10 ticks,
not at Paused 00:10 after the paused ticks, not at 00:25 after the 15 ticks and
not at 01:04 after the rollover ticks. -/
theorem scenario_not_as_claimed :
    obs (main_upto_count10 eval_spec tick_delay_us_default dut_new) ≠ (1, 0, 10) ∧
    obs (main_upto_paused5 eval_spec tick_delay_us_default dut_new) ≠ (2, 0, 10) ∧
    obs (main_upto_count15 eval_spec tick_delay_us_default dut_new) ≠ (1, 0, 25) ∧
    obs (main_upto_rollover eval_spec tick_delay_us_default dut_new) ≠ (1, 1, 4) := by
  refine ⟨?_, ?_, ?_, ?_⟩
  · rw [obs, upto_count10_dut]; decide
  · rw [obs, upto_paused5_dut]; decide
  · rw [obs, upto_count15_dut]; decide
  · rw [obs, upto_rollover_dut]; decide

/-- C9: for every device, device state, tick counter and any two pacing delays
(0 included), the two runs of `tick` end in the same device state and the same
tick counter, report the same status line, and perform the same actions apart
from the `usleep` call itself. -/
theorem tick_delay_irrelevant (ev : Vstopwatch_top → Vstopwatch_top) (d1 d2 : Nat) (s : Sim) :
    (tick ev d1 s).dut = (tick ev d2 s).dut ∧
    (tick ev d1 s).tickcount = (tick ev d2 s).tickcount ∧
    status_lines (tick ev d1 s).log = status_lines (tick ev d2 s).log ∧
    status_lines (tick ev d1 s).log = status_lines s.log ++ [status_text (tick ev d1 s).dut] ∧
    without_usleep (tick ev d1 s).log = without_usleep (tick ev d2 s).log := by
  rw [tick_eq, tick_eq]
  refine ⟨rfl, rfl, ?_, ?_, ?_⟩
  · by_cases h1 : d1 > 0 <;> by_cases h2 : d2 > 0 <;>
      simp [status_lines, tick_events, h1, h2, List.filterMap_append]
  · by_cases h1 : d1 > 0 <;>
      simp [status_lines, tick_events, h1, List.filterMap_append]
  · by_cases h1 : d1 > 0 <;> by_cases h2 : d2 > 0 <;>
      simp [without_usleep, tick_events, h1, h2, List.filter_append, Event.is_usleep]

end Stopwatch
